import Mathlib

deriving instance DecidableEq for Except

/-!
Verification of the mackerel-agent-plugins metric collectors.

Shallow embedding of the three plugins in this repository:
  - mackerel-plugin-elasticsearch (structured-path JSON extraction),
  - mackerel-plugin-haproxy (tabular CSV extraction),
  - mackerel-plugin-php-fpm (JSON struct unmarshalling).

Decoded JSON documents are modelled by the inductive `Json`; Go maps
(map[string]interface Any and the metric sample map) are modelled as
association lists with unique keys, written in insertion order.  Go
float64 values are modelled by exact rationals.  The HTTP layer is cut
at the response boundary: each fetch function is embedded from the point
where the response (status code plus decoded body) is available, which
is exactly the part of the code the claims speak about.
-/

/-- A decoded JSON value as produced by encoding/json into interface
values: numbers decode to float64 (modelled as rationals), objects to
map[string]interface maps (modelled as association lists). -/
inductive Json where
  | null : Json
  | bool : Bool → Json
  | num : ℚ → Json
  | str : String → Json
  | arr : List Json → Json
  | obj : List (String × Json) → Json

/-- A decoded JSON object, i.e. a Go map[string]interface value. -/
abbrev JObj := List (String × Json)

/-- Lookup in a decoded JSON object; `none` models the nil interface
value a Go map read returns for an absent key. -/
def lookupJ : JObj → String → Option Json
  | [], _ => none
  | (k2, v) :: rest, k => if k2 = k then some v else lookupJ rest k

/-- Embeds getFloatValue of the Elasticsearch plugin: walk the key path
through nested objects; a non-terminal key whose value is absent or not
a map fails with "Cannot handle as a hash", a terminal key whose value
is absent or not a float64 fails with "Not float64". -/
def getFloatValue (s : JObj) : List String → Except String ℚ
  | [] => Except.ok 0
  | [k] =>
    match lookupJ s k with
    | some (Json.num v) => Except.ok v
    | _ => Except.error "Not float64"
  | k :: k2 :: rest =>
    match lookupJ s k with
    | some (Json.obj m) => getFloatValue m (k2 :: rest)
    | _ => Except.error "Cannot handle as a hash"

/-- Embeds the metricPlace table of the Elasticsearch plugin: metric
name to key path.  The Go original is a map; it is written here in
source order (iteration order does not affect the resulting sample map
because the names are pairwise distinct). -/
def metricPlace : List (String × List String) :=
  [ ("http_opened", ["http", "total_opened"])
  , ("total_indexing_index", ["indices", "indexing", "index_total"])
  , ("total_indexing_delete", ["indices", "indexing", "delete_total"])
  , ("total_get", ["indices", "get", "total"])
  , ("total_search_query", ["indices", "search", "query_total"])
  , ("total_search_fetch", ["indices", "search", "fetch_total"])
  , ("total_merges", ["indices", "merges", "total"])
  , ("total_refresh", ["indices", "refresh", "total"])
  , ("total_flush", ["indices", "flush", "total"])
  , ("total_warmer", ["indices", "warmer", "total"])
  , ("total_percolate", ["indices", "percolate", "total"])
  , ("total_suggest", ["indices", "suggest", "total"])
  , ("docs_count", ["indices", "docs", "count"])
  , ("docs_deleted", ["indices", "docs", "deleted"])
  , ("fielddata_size", ["indices", "fielddata", "memory_size_in_bytes"])
  , ("filter_cache_size", ["indices", "filter_cache", "memory_size_in_bytes"])
  , ("segments_size", ["indices", "segments", "memory_in_bytes"])
  , ("segments_index_writer_size", ["indices", "segments", "index_writer_memory_in_bytes"])
  , ("segments_version_map_size", ["indices", "segments", "version_map_memory_in_bytes"])
  , ("segments_fixed_bit_set_size", ["indices", "segments", "fixed_bit_set_memory_in_bytes"])
  , ("evictions_fielddata", ["indices", "fielddata", "evictions"])
  , ("evictions_filter_cache", ["indices", "filter_cache", "evictions"])
  , ("heap_used", ["jvm", "mem", "heap_used_in_bytes"])
  , ("heap_max", ["jvm", "mem", "heap_max_in_bytes"])
  , ("threads_generic", ["thread_pool", "generic", "threads"])
  , ("threads_index", ["thread_pool", "index", "threads"])
  , ("threads_snapshot_data", ["thread_pool", "snapshot_data", "threads"])
  , ("threads_get", ["thread_pool", "get", "threads"])
  , ("threads_bench", ["thread_pool", "bench", "threads"])
  , ("threads_snapshot", ["thread_pool", "snapshot", "threads"])
  , ("threads_merge", ["thread_pool", "merge", "threads"])
  , ("threads_suggest", ["thread_pool", "suggest", "threads"])
  , ("threads_bulk", ["thread_pool", "bulk", "threads"])
  , ("threads_optimize", ["thread_pool", "optimize", "threads"])
  , ("threads_warmer", ["thread_pool", "warmer", "threads"])
  , ("threads_flush", ["thread_pool", "flush", "threads"])
  , ("threads_search", ["thread_pool", "search", "threads"])
  , ("threads_percolate", ["thread_pool", "percolate", "threads"])
  , ("threads_refresh", ["thread_pool", "refresh", "threads"])
  , ("threads_management", ["thread_pool", "management", "threads"])
  , ("threads_fetch_shard_started", ["thread_pool", "fetch_shard_started", "threads"])
  , ("threads_fetch_shard_store", ["thread_pool", "fetch_shard_store", "threads"])
  , ("threads_listener", ["thread_pool", "listener", "threads"])
  , ("count_rx", ["transport", "rx_count"])
  , ("count_tx", ["transport", "tx_count"])
  , ("open_file_descriptors", ["process", "open_file_descriptors"])
  , ("compilations", ["script", "compilations"])
  , ("cache_evictions", ["script", "cache_evictions"])
  , ("compilation_limit_triggered", ["script", "compilation_limit_triggered"])
  ]

/-- Go map assignment stat[k] = v on the metric sample map, modelled on
an association list: replace in place when the key exists, append
otherwise. -/
def statInsert (stat : List (String × ℚ)) (k : String) (v : ℚ) : List (String × ℚ) :=
  if stat.any (fun kv => kv.1 = k) then
    stat.map (fun kv => if kv.1 = k then (k, v) else kv)
  else stat ++ [(k, v)]

/-- Go map read with zero default, as in stat[k] for a float64 map. -/
def lookup0 (stat : List (String × ℚ)) (k : String) : ℚ :=
  match stat.find? (fun kv => kv.1 = k) with
  | some kv => kv.2
  | none => 0

/-- Go compound assignment stat[k] += v. -/
def statAdd (stat : List (String × ℚ)) (k : String) (v : ℚ) : List (String × ℚ) :=
  statInsert stat k (lookup0 stat k + v)

example : getFloatValue [("a", Json.obj [("b", Json.num 3)])] ["a", "b"] = Except.ok 3 := by decide
example : getFloatValue [("a", Json.obj [("b", Json.num 3)])] ["a", "c"] = Except.error "Not float64" := by decide
example : getFloatValue [("a", Json.num 3)] ["a", "b"] = Except.error "Cannot handle as a hash" := by decide
example : statAdd (statAdd [] "x" 2) "x" 3 = [("x", 5)] := by
  simp [statAdd, statInsert, lookup0]
  norm_num

/-- Outcome of the Elasticsearch FetchMetrics body: a metric sample
map, an error return, or a runtime panic from an unchecked type
assertion. -/
inductive ESFetchOutcome where
  | ok : List (String × ℚ) → ESFetchOutcome
  | err : String → ESFetchOutcome
  | panics : ESFetchOutcome
  deriving DecidableEq

/-- Embeds the metric extraction loop of the Elasticsearch
FetchMetrics: for each entry of metricPlace, look up the value; on
success store it in stat, on failure skip the metric and continue (the
SuppressMissingError flag only guards the logger.Errorf call, which
does not touch stat). -/
def runMetricLoop (node : JObj) : List (String × List String) → List (String × ℚ) → List (String × ℚ)
  | [], stat => stat
  | (k, path) :: rest, stat =>
    match getFloatValue node path with
    | Except.ok v => runMetricLoop node rest (statInsert stat k v)
    | Except.error _ => runMetricLoop node rest stat

/-- Embeds the Elasticsearch FetchMetrics from the point where the
response body has been decoded into the generic map s.  The code runs
nodes = s["nodes"].(map[string]interface) — an unchecked assertion that
panics when the key is absent or not an object; it then finds the
unique node key (erroring on two or more nodes) and asserts the node
value to be an object (panicking otherwise, including when the nodes
object is empty and the lookup of the empty key returns nil). -/
def fetchMetricsFromDecoded (suppressMissingError : Bool) (s : JObj) : ESFetchOutcome :=
  match lookupJ s "nodes" with
  | some (Json.obj nodes) =>
    match nodes with
    | [] => ESFetchOutcome.panics
    | [(_, Json.obj node)] =>
      ESFetchOutcome.ok (runMetricLoop node metricPlace [])
    | [(_, _)] => ESFetchOutcome.panics
    | _ :: _ :: _ => ESFetchOutcome.err "Multiple node found"
  | _ => ESFetchOutcome.panics

/-- Embeds the Elasticsearch FetchMetrics from the point where the
HTTP response is available: the status code is never inspected; the
body is JSON-decoded (none models a body that is not valid JSON, which
makes decoder.Decode return an error) and handed to the extraction. -/
def elasticsearchHandleResponse (suppressMissingError : Bool) (statusCode : Nat)
    (decodedBody : Option JObj) : ESFetchOutcome :=
  match decodedBody with
  | none => ESFetchOutcome.err "json decode error"
  | some s => fetchMetricsFromDecoded suppressMissingError s

example :
    fetchMetricsFromDecoded false [("nodes", Json.obj [("n1", Json.obj [])])] = ESFetchOutcome.ok [] := by
  decide

example :
    fetchMetricsFromDecoded false [("stats", Json.num 1)] = ESFetchOutcome.panics := by
  decide

/-- Decimal digit test on a character. -/
def isDigitCh (c : Char) : Bool := decide (48 ≤ c.toNat) && decide (c.toNat ≤ 57)

/-- Value of a list of decimal digit characters. -/
def digitsToNat (cs : List Char) : Nat :=
  cs.foldl (fun a c => a * 10 + (c.toNat - 48)) 0

/-- Exponent part of a decimal float literal: either nothing, or e/E
with an optional sign and at least one digit and nothing after. -/
def parseExpPart (cs : List Char) (m : ℚ) : Option ℚ :=
  match cs with
  | [] => some m
  | c :: rest =>
    if c = 'e' ∨ c = 'E' then
      let sr : Bool × List Char :=
        match rest with
        | '+' :: r => (false, r)
        | '-' :: r => (true, r)
        | r => (false, r)
      let ds := sr.2.takeWhile isDigitCh
      let tail := sr.2.dropWhile isDigitCh
      if ds.isEmpty ∨ ¬ tail.isEmpty then none
      else if sr.1 then some (m / 10 ^ digitsToNat ds) else some (m * 10 ^ digitsToNat ds)
    else none

/-- Models Go strconv.ParseFloat as used by the HAProxy plugin,
restricted to the plain decimal forms a HAProxy stats CSV contains
(optional sign, digits, optional fractional part, optional exponent;
the Inf, NaN, hex and underscore forms are out of scope), with the
exact rational value in place of the rounded float64. -/
def parseFloat (s : String) : Option ℚ :=
  let sr : Bool × List Char :=
    match s.toList with
    | '+' :: r => (false, r)
    | '-' :: r => (true, r)
    | r => (false, r)
  let intPart := sr.2.takeWhile isDigitCh
  let rest1 := sr.2.dropWhile isDigitCh
  let core : Option ℚ :=
    match rest1 with
    | '.' :: rest2 =>
      let fracPart := rest2.takeWhile isDigitCh
      let rest3 := rest2.dropWhile isDigitCh
      if intPart.isEmpty ∧ fracPart.isEmpty then none
      else parseExpPart rest3 ((digitsToNat intPart : ℚ) + (digitsToNat fracPart : ℚ) / 10 ^ fracPart.length)
    | _ =>
      if intPart.isEmpty then none else parseExpPart rest1 (digitsToNat intPart : ℚ)
  match core with
  | none => none
  | some m => some (if sr.1 then -m else m)

/-- Embeds the BACKEND-row body of the HAProxy parseStats loop: parse
columns 7, 8, 9 and 13 in order, adding each into its accumulator in
the stat map, failing at the first column that does not parse. -/
def parseBackendRow (stat : List (String × ℚ)) (columns : List String) :
    Except String (List (String × ℚ)) :=
  match parseFloat (columns.getD 7 "") with
  | none => Except.error "cannot get values"
  | some d1 =>
    let stat1 := statAdd stat "sessions" d1
    match parseFloat (columns.getD 8 "") with
    | none => Except.error "cannot get values"
    | some d2 =>
      let stat2 := statAdd stat1 "bytes_in" d2
      match parseFloat (columns.getD 9 "") with
      | none => Except.error "cannot get values"
      | some d3 =>
        let stat3 := statAdd stat2 "bytes_out" d3
        match parseFloat (columns.getD 13 "") with
        | none => Except.error "cannot get values"
        | some d4 => Except.ok (statAdd stat3 "connection_errors" d4)

/-- Embeds the read loop of the HAProxy parseStats over the CSV
records (the csv.Reader is abstracted to the list of rows it yields;
io.EOF ends the loop).  A row shorter than 60 columns aborts with the
format error; a row whose second column is not BACKEND is skipped; a
BACKEND row has its designated columns summed into the stat map. -/
def parseStatsLoop : List (List String) → List (String × ℚ) → Except String (List (String × ℚ))
  | [], stat => Except.ok stat
  | columns :: rest, stat =>
    if columns.length < 60 then
      Except.error "length of stats csv is too short (specified uri/socket may be wrong)"
    else if columns.getD 1 "" ≠ "BACKEND" then parseStatsLoop rest stat
    else
      match parseBackendRow stat columns with
      | Except.error e => Except.error e
      | Except.ok stat2 => parseStatsLoop rest stat2

/-- Embeds parseStats of the HAProxy plugin: run the row loop starting
from the empty stat map. -/
def parseStats (rows : List (List String)) : Except String (List (String × ℚ)) :=
  parseStatsLoop rows []

/-- Embeds fetchMetricsFromTCP of the HAProxy plugin from the point
where the HTTP response is available: a status other than 200 fails
with the error carrying the status text and the request URI and no
metric map; otherwise the body rows go to parseStats. -/
def haproxyHandleResponse (statusCode : Nat) (statusText : String) (requestURI : String)
    (rows : List (List String)) : Except String (List (String × ℚ)) :=
  if statusCode ≠ 200 then
    Except.error ("Request failed. Status: " ++ statusText ++ ", URI: " ++ requestURI)
  else parseStats rows

example : parseFloat "10" = some 10 := rfl
example : parseFloat "" = none := by decide
example : parseFloat "x1" = none := by decide

/-- One metric entry of a graph definition (mp.Metrics): name, display
label, the Diff flag classifying the metric as a cumulative counter,
the Stacked flag, and the value type tag. -/
structure GraphMetric where
  name : String
  label : String
  diff : Bool := false
  stacked : Bool := false
  mtype : String := ""
  deriving DecidableEq

/-- One graph of a graph definition (mp.Graphs). -/
structure GraphSpec where
  label : String
  unit : String
  metrics : List GraphMetric
  deriving DecidableEq

/-- All metric names declared by a graph definition. -/
def graphDefMetricNames (g : List (String × GraphSpec)) : List String :=
  (g.map (fun kv => kv.2.metrics.map (fun m => m.name))).flatten

/-- Embeds GraphDefinition of the Elasticsearch plugin, keyed and
labelled from the configured metric key and label strings. -/
def elasticsearchGraphDefinition (keyPfx lblPfx : String) : List (String × GraphSpec) :=
  [ (keyPfx ++ ".http",
     { label := lblPfx ++ " HTTP", unit := "integer",
       metrics := [ { name := "http_opened", label := "Opened", diff := true } ] })
  , (keyPfx ++ ".indices",
     { label := lblPfx ++ " Indices", unit := "integer",
       metrics :=
        [ { name := "total_indexing_index", label := "Indexing-Index", diff := true, stacked := true }
        , { name := "total_indexing_delete", label := "Indexing-Delete", diff := true, stacked := true }
        , { name := "total_get", label := "Get", diff := true, stacked := true }
        , { name := "total_search_query", label := "Search-Query", diff := true, stacked := true }
        , { name := "total_search_fetch", label := "Search-fetch", diff := true, stacked := true }
        , { name := "total_merges", label := "Merges", diff := true, stacked := true }
        , { name := "total_refresh", label := "Refresh", diff := true, stacked := true }
        , { name := "total_flush", label := "Flush", diff := true, stacked := true }
        , { name := "total_warmer", label := "Warmer", diff := true, stacked := true }
        , { name := "total_percolate", label := "Percolate", diff := true, stacked := true }
        , { name := "total_suggest", label := "Suggest", diff := true, stacked := true } ] })
  , (keyPfx ++ ".indices.docs",
     { label := lblPfx ++ " Indices Docs", unit := "integer",
       metrics :=
        [ { name := "docs_count", label := "Count", stacked := true }
        , { name := "docs_deleted", label := "Deleted", stacked := true } ] })
  , (keyPfx ++ ".indices.memory_size",
     { label := lblPfx ++ " Indices Memory Size", unit := "bytes",
       metrics :=
        [ { name := "fielddata_size", label := "Fielddata", stacked := true }
        , { name := "filter_cache_size", label := "Filter Cache", stacked := true }
        , { name := "segments_size", label := "Lucene Segments", stacked := true }
        , { name := "segments_index_writer_size", label := "Lucene Segments Index Writer", stacked := true }
        , { name := "segments_version_map_size", label := "Lucene Segments Version Map", stacked := true }
        , { name := "segments_fixed_bit_set_size", label := "Lucene Segments Fixed Bit Set", stacked := true } ] })
  , (keyPfx ++ ".indices.evictions",
     { label := lblPfx ++ " Indices Evictions", unit := "integer",
       metrics :=
        [ { name := "evictions_fielddata", label := "Fielddata", diff := true }
        , { name := "evictions_filter_cache", label := "Filter Cache", diff := true } ] })
  , (keyPfx ++ ".jvm.heap",
     { label := lblPfx ++ " JVM Heap Mem", unit := "bytes",
       metrics :=
        [ { name := "heap_used", label := "Used" }
        , { name := "heap_max", label := "Max" } ] })
  , (keyPfx ++ ".thread_pool.threads",
     { label := lblPfx ++ " Thread-Pool Threads", unit := "integer",
       metrics :=
        [ { name := "threads_generic", label := "Generic", stacked := true }
        , { name := "threads_index", label := "Index", stacked := true }
        , { name := "threads_snapshot_data", label := "Snapshot Data", stacked := true }
        , { name := "threads_get", label := "Get", stacked := true }
        , { name := "threads_bench", label := "Bench", stacked := true }
        , { name := "threads_snapshot", label := "Snapshot", stacked := true }
        , { name := "threads_merge", label := "Merge", stacked := true }
        , { name := "threads_suggest", label := "Suggest", stacked := true }
        , { name := "threads_bulk", label := "Bulk", stacked := true }
        , { name := "threads_optimize", label := "Optimize", stacked := true }
        , { name := "threads_warmer", label := "Warmer", stacked := true }
        , { name := "threads_flush", label := "Flush", stacked := true }
        , { name := "threads_search", label := "Search", stacked := true }
        , { name := "threads_percolate", label := "Percolate", stacked := true }
        , { name := "threads_refresh", label := "Refresh", stacked := true }
        , { name := "threads_management", label := "Management", stacked := true }
        , { name := "threads_fetch_shard_started", label := "Fetch Shard Started", stacked := true }
        , { name := "threads_fetch_shard_store", label := "Fetch Shard Store", stacked := true }
        , { name := "threads_listener", label := "Listener", stacked := true } ] })
  , (keyPfx ++ ".transport.count",
     { label := lblPfx ++ " Transport Count", unit := "integer",
       metrics :=
        [ { name := "count_rx", label := "TX", diff := true }
        , { name := "count_tx", label := "RX", diff := true } ] })
  , (keyPfx ++ ".process",
     { label := lblPfx ++ " Process", unit := "integer",
       metrics := [ { name := "open_file_descriptors", label := "Open File Descriptors" } ] })
  , (keyPfx ++ ".script",
     { label := lblPfx ++ " Script", unit := "integer",
       metrics :=
        [ { name := "compilations", label := "Compilations", diff := true }
        , { name := "cache_evictions", label := "Cache Evictions", diff := true }
        , { name := "compilation_limit_triggered", label := "Compilation Limit Triggered", diff := true } ] })
  ]

/-- Embeds the graphdef table of the HAProxy plugin. -/
def haproxyGraphdef : List (String × GraphSpec) :=
  [ ("haproxy.total.sessions",
     { label := "HAProxy Total Sessions", unit := "integer",
       metrics := [ { name := "sessions", label := "Sessions", diff := true } ] })
  , ("haproxy.total.bytes",
     { label := "HAProxy Total Bytes", unit := "integer",
       metrics :=
        [ { name := "bytes_in", label := "Bytes In", diff := true }
        , { name := "bytes_out", label := "Bytes Out", diff := true } ] })
  , ("haproxy.total.connection_errors",
     { label := "HAProxy Total Connection Errors", unit := "integer",
       metrics := [ { name := "connection_errors", label := "Connection Errors", diff := true } ] })
  ]

/-- Embeds GraphDefinition of the PHP-FPM plugin. -/
def phpFpmGraphDefinition (lblPfx : String) : List (String × GraphSpec) :=
  [ ("processes",
     { label := lblPfx ++ " Processes", unit := "integer",
       metrics :=
        [ { name := "total_processes", label := "Total Processes", diff := false, mtype := "uint64" }
        , { name := "active_processes", label := "Active Processes", diff := false, mtype := "uint64" }
        , { name := "idle_processes", label := "Idle Processes", diff := false, mtype := "uint64" } ] })
  , ("max_active_processes",
     { label := lblPfx ++ " Max Active Processes", unit := "integer",
       metrics := [ { name := "max_active_processes", label := "Max Active Processes", diff := false, mtype := "uint64" } ] })
  , ("max_children_reached",
     { label := lblPfx ++ " Max Children Reached", unit := "integer",
       metrics := [ { name := "max_children_reached", label := "Max Children Reached", diff := false, mtype := "uint64" } ] })
  , ("queue",
     { label := lblPfx ++ " Queue", unit := "integer",
       metrics :=
        [ { name := "listen_queue", label := "Listen Queue", diff := false, mtype := "uint64" }
        , { name := "listen_queue_len", label := "Listen Queue Len", diff := false, mtype := "uint64" } ] })
  , ("max_listen_queue",
     { label := lblPfx ++ " Max Listen Queue", unit := "integer",
       metrics := [ { name := "max_listen_queue", label := "Max Listen Queue", diff := false, mtype := "uint64" } ] })
  , ("slow_requests",
     { label := lblPfx ++ " Slow Requests", unit := "integer",
       metrics := [ { name := "slow_requests", label := "Slow Requests", diff := false, mtype := "uint64" } ] })
  ]

/-- The timeout field of a Go http.Client; in Go the zero value 0
means no timeout at all (the request may wait forever). -/
structure HTTPClientConfig where
  timeoutSeconds : Nat
  deriving DecidableEq

/-- Embeds the http.Client built by the Elasticsearch FetchMetrics: it
sets only the Transport field (for the TLS option), leaving Timeout at
its zero value, i.e. no timeout. -/
def elasticsearchHTTPClient : HTTPClientConfig := { timeoutSeconds := 0 }

/-- Embeds the http.Client built by the HAProxy fetchMetricsFromTCP:
Timeout is the fixed 5 seconds. -/
def haproxyHTTPClient : HTTPClientConfig := { timeoutSeconds := 5 }

/-- Embeds the http.Client built by the PHP-FPM getStatus: Timeout
comes from the configured Timeout flag value, in seconds. -/
def phpFpmHTTPClient (timeout : Nat) : HTTPClientConfig := { timeoutSeconds := timeout }

/-- Default of the PHP-FPM timeout flag. -/
def phpFpmDefaultTimeout : Nat := 5

/-- Embeds the HAProxy fetchMetricsFromSocket connection handling: the
code dials the Unix socket, writes show stat and reads until EOF; no
SetDeadline or timeout of any kind is applied to the connection. -/
def haproxySocketSetsDeadline : Bool := false

/-- A transport enforces a bounded wait exactly when its configured
timeout is nonzero. -/
def hasBoundedWait (c : HTTPClientConfig) : Bool := c.timeoutSeconds ≠ 0

/-- Embeds the PhpFpmStatus struct of the PHP-FPM plugin; the uint64
fields are modelled as naturals below 2 to the 64. -/
structure PhpFpmStatus where
  pool : String
  processManager : String
  startTime : Nat
  startSince : Nat
  acceptedConn : Nat
  listenQueue : Nat
  maxListenQueue : Nat
  listenQueueLen : Nat
  idleProcesses : Nat
  activeProcesses : Nat
  totalProcesses : Nat
  maxActiveProcesses : Nat
  maxChildrenReached : Nat
  slowRequests : Nat
  deriving DecidableEq

/-- Models encoding/json decoding of one uint64 struct field from a
JSON object: an absent key leaves the zero value; a number decodes
when it is a non-negative integer below 2 to the 64; a fractional,
negative, overflowing or non-number value makes Unmarshal record a
type error while the field keeps its zero value (the caller discards
that error, so the zero value is what the program observes). -/
def decodeUInt64Field (o : JObj) (k : String) : Nat :=
  match lookupJ o k with
  | some (Json.num q) =>
    if q.den = 1 ∧ 0 ≤ q.num ∧ q.num < 2 ^ 64 then q.num.toNat else 0
  | _ => 0

/-- Models encoding/json decoding of one string struct field, with the
same convention as decodeUInt64Field. -/
def decodeStringField (o : JObj) (k : String) : String :=
  match lookupJ o k with
  | some (Json.str s) => s
  | _ => ""

/-- The PhpFpmStatus decoded from a JSON object, field by field with
the json tags of the struct. -/
def decodeStatusObj (o : JObj) : PhpFpmStatus :=
  { pool := decodeStringField o "pool"
  , processManager := decodeStringField o "process manager"
  , startTime := decodeUInt64Field o "start time"
  , startSince := decodeUInt64Field o "start since"
  , acceptedConn := decodeUInt64Field o "accepted conn"
  , listenQueue := decodeUInt64Field o "listen queue"
  , maxListenQueue := decodeUInt64Field o "max listen queue"
  , listenQueueLen := decodeUInt64Field o "listen queue len"
  , idleProcesses := decodeUInt64Field o "idle processes"
  , activeProcesses := decodeUInt64Field o "active processes"
  , totalProcesses := decodeUInt64Field o "total processes"
  , maxActiveProcesses := decodeUInt64Field o "max active processes"
  , maxChildrenReached := decodeUInt64Field o "max children reached"
  , slowRequests := decodeUInt64Field o "slow requests" }

/-- Models the pointer named status after json.Unmarshal(body, and
status) in the PHP-FPM getStatus.  The body is given as the decoded
JSON document, none standing for a body that is not valid JSON: there
Unmarshal fails with a syntax error before touching the pointer, which
therefore stays nil.  A JSON null also leaves the pointer nil.  A JSON
object allocates the struct and fills its fields.  Any other JSON
value allocates the struct before failing with a type error, leaving
the zero struct (the error is discarded by the caller either way). -/
def jsonUnmarshalStatus (body : Option Json) : Option PhpFpmStatus :=
  match body with
  | none => none
  | some Json.null => none
  | some (Json.obj o) => some (decodeStatusObj o)
  | some _ => some (decodeStatusObj [])

/-- Embeds getStatus of the PHP-FPM plugin from the point where the
response body has been read: the error returned by json.Unmarshal is
never checked, so getStatus always returns the resulting pointer with
a nil error. -/
def getStatusFromBody (body : Option Json) : Except String (Option PhpFpmStatus) :=
  Except.ok (jsonUnmarshalStatus body)

/-- Outcome of the PHP-FPM FetchMetrics: a metric sample map, an error
return, or a runtime panic from dereferencing a nil status pointer. -/
inductive PhpFetchOutcome where
  | ok : List (String × Nat) → PhpFetchOutcome
  | err : String → PhpFetchOutcome
  | panics : PhpFetchOutcome
  deriving DecidableEq

/-- Embeds FetchMetrics of the PHP-FPM plugin: an error from getStatus
is wrapped and returned; otherwise the returned status pointer is
dereferenced for every field — a nil pointer (body not valid JSON, or
JSON null) panics with a nil pointer dereference. -/
def phpFetchMetricsFromBody (body : Option Json) : PhpFetchOutcome :=
  match getStatusFromBody body with
  | Except.error e => PhpFetchOutcome.err ("Failed to fetch PHP-FPM metrics: " ++ e)
  | Except.ok none => PhpFetchOutcome.panics
  | Except.ok (some st) =>
    PhpFetchOutcome.ok
      [ ("total_processes", st.totalProcesses)
      , ("active_processes", st.activeProcesses)
      , ("idle_processes", st.idleProcesses)
      , ("max_active_processes", st.maxActiveProcesses)
      , ("max_children_reached", st.maxChildrenReached)
      , ("listen_queue", st.listenQueue)
      , ("listen_queue_len", st.listenQueueLen)
      , ("max_listen_queue", st.maxListenQueue)
      , ("slow_requests", st.slowRequests) ]

/-- Embeds the PHP-FPM fetch from the point where the HTTP response is
available: getStatus never inspects the response status code, it only
reads the body. -/
def phpFetchMetricsFromResponse (statusCode : Nat) (body : Option Json) : PhpFetchOutcome :=
  phpFetchMetricsFromBody body

/-- Modelled from the spec: the counter-to-rate conversion of section
4.4, performed by the external go-mackerel-plugin helper invoked via
helper.Run, whose source is not part of this repository.  For a metric
declared with Diff true, the emitted value is (current - previous)
divided by (now - previousTimestamp), clamped to zero when the delta
is negative, and omitted when no previous record exists; a metric with
Diff false passes through unchanged. -/
def toRate (diff : Bool) (previous : Option (ℚ × ℚ)) (current now : ℚ) : Option ℚ :=
  if diff then
    match previous with
    | none => none
    | some (v1, t1) => if current < v1 then some 0 else some ((current - v1) / (now - t1))
  else some current

/-- Value reached from a JSON value by following a key path through
nested objects; this is the specification-side description of the
structured-path walk, used to state the correctness of
getFloatValue. -/
def followPath (j : Json) : List String → Option Json
  | [] => some j
  | k :: rest =>
    match j with
    | Json.obj o =>
      match lookupJ o k with
      | some v => followPath v rest
      | none => none
    | _ => none

/-- C2: for every metric declared as a cumulative counter (all HAProxy
graphdef metrics carry Diff true), given previous record (v1, t1) and
current sample (v2, t2) with t2 greater than t1, the emitted value is
(v2 - v1) / (t2 - t1) when v2 is at least v1, zero when v2 is below
v1, and the metric is omitted when no previous record exists; a gauge
metric (Diff false) passes through unchanged. -/
theorem c2_counter_rate (v1 t1 v2 t2 : ℚ) (prev : Option (ℚ × ℚ)) (h : t1 < t2) :
    (v1 ≤ v2 → toRate true (some (v1, t1)) v2 t2 = some ((v2 - v1) / (t2 - t1))) ∧
    (v2 < v1 → toRate true (some (v1, t1)) v2 t2 = some 0) ∧
    toRate true none v2 t2 = none ∧
    toRate false prev v2 t2 = some v2 ∧
    (∀ g ∈ haproxyGraphdef, ∀ m ∈ g.2.metrics, m.diff = true) := by
  refine ⟨?_, ?_, rfl, rfl, by decide⟩
  · intro hle
    simp [toRate, not_lt.mpr hle]
  · intro hlt
    simp [toRate, hlt]

theorem c2_counter_rate_witness :
    (0 : ℚ) < 2 ∧ toRate true (some (1, 0)) 3 2 = some ((3 - 1) / (2 - 0)) :=
  ⟨by norm_num, (c2_counter_rate 1 0 3 2 none (by norm_num)).1 (by norm_num)⟩

/-- C4 counterexample: the http.Client built by the Elasticsearch
FetchMetrics leaves the Timeout field at its zero value, meaning no
timeout at all, and the HAProxy Unix-socket path sets no deadline on
the connection — so not every transport variant enforces a bounded
wait. -/
theorem c4_counterexample :
    hasBoundedWait elasticsearchHTTPClient = false ∧ haproxySocketSetsDeadline = false := by
  decide

/-- C4 amended: only the HAProxy TCP fetch (fixed 5 seconds) and the
PHP-FPM fetch (configurable, default 5 seconds, bounded whenever the
flag is nonzero) configure a finite timeout; the Elasticsearch HTTP
client configures none, and the HAProxy Unix-socket path sets no
deadline. -/
theorem c4_bounded_wait (t : Nat) (h : t ≠ 0) :
    hasBoundedWait haproxyHTTPClient = true ∧
    hasBoundedWait (phpFpmHTTPClient t) = true ∧
    hasBoundedWait (phpFpmHTTPClient phpFpmDefaultTimeout) = true ∧
    hasBoundedWait elasticsearchHTTPClient = false ∧
    haproxySocketSetsDeadline = false := by
  refine ⟨rfl, ?_, rfl, rfl, rfl⟩
  simp [hasBoundedWait, phpFpmHTTPClient, h]

theorem c4_bounded_wait_witness :
    (5 : Nat) ≠ 0 ∧ hasBoundedWait (phpFpmHTTPClient 5) = true :=
  ⟨by decide, (c4_bounded_wait 5 (by decide)).2.1⟩

/-- C5: evaluation of the PHP-FPM fetch at a structurally unparseable
body.  The json.Unmarshal error is discarded, so getStatus returns a
nil status pointer together with a nil error, and FetchMetrics then
dereferences the nil pointer and panics instead of returning an
error. -/
theorem c5_unparseable_body_panics :
    getStatusFromBody none = Except.ok none ∧
    phpFetchMetricsFromBody none = PhpFetchOutcome.panics := by
  decide

/-- C10: the decode-succeeded branch of the Elasticsearch FetchMetrics
is not total over well-formed JSON: a payload without a nodes key,
with a nodes value that is not an object, or whose single node entry
is not an object, makes the unchecked type assertions panic instead of
returning an error. -/
theorem c10_unchecked_assertions_panic (suppress : Bool) (s : JObj) :
    (lookupJ s "nodes" = none → fetchMetricsFromDecoded suppress s = ESFetchOutcome.panics) ∧
    (∀ j, lookupJ s "nodes" = some j → (∀ o, j ≠ Json.obj o) →
      fetchMetricsFromDecoded suppress s = ESFetchOutcome.panics) ∧
    (∀ k v, lookupJ s "nodes" = some (Json.obj [(k, v)]) → (∀ o, v ≠ Json.obj o) →
      fetchMetricsFromDecoded suppress s = ESFetchOutcome.panics) := by
  refine ⟨?_, ?_, ?_⟩
  · intro h
    simp [fetchMetricsFromDecoded, h]
  · intro j hj hno
    cases j <;> simp [fetchMetricsFromDecoded, hj]
    case obj o => exact absurd rfl (hno o)
  · intro k v hv hno
    cases v <;> simp [fetchMetricsFromDecoded, hv]
    case obj o => exact absurd rfl (hno o)

theorem c10_unchecked_assertions_panic_witness :
    fetchMetricsFromDecoded false [] = ESFetchOutcome.panics ∧
    fetchMetricsFromDecoded false [("nodes", Json.num 3)] = ESFetchOutcome.panics ∧
    fetchMetricsFromDecoded false [("nodes", Json.obj [("n1", Json.num 7)])] = ESFetchOutcome.panics :=
  ⟨(c10_unchecked_assertions_panic false []).1 rfl,
   (c10_unchecked_assertions_panic false [("nodes", Json.num 3)]).2.1
     (Json.num 3) rfl (fun o h => Json.noConfusion h),
   (c10_unchecked_assertions_panic false [("nodes", Json.obj [("n1", Json.num 7)])]).2.2
     "n1" (Json.num 7) rfl (fun o h => Json.noConfusion h)⟩

/-- A decoded payload with a single node exposing only the two JVM
heap fields; every other declared metric path is absent. -/
def c1Payload : JObj :=
  [("nodes", Json.obj [("node1", Json.obj
    [("jvm", Json.obj [("mem", Json.obj
      [("heap_used_in_bytes", Json.num 100), ("heap_max_in_bytes", Json.num 200)])])])])]

/-- C1 counterexample: with SuppressMissingError false and a payload
in which declared metric fields are absent, FetchMetrics does not
return an error — it returns the successfully extracted metrics with a
nil error, so the run does not abort. -/
theorem c1_counterexample :
    fetchMetricsFromDecoded false c1Payload
      = ESFetchOutcome.ok [("heap_used", 100), ("heap_max", 200)] := by
  decide

/-- A decoded payload with two nodes, the one shape on which the
Elasticsearch FetchMetrics does return an error. -/
def c1TwoNodes : JObj :=
  [("nodes", Json.obj [("a", Json.obj []), ("b", Json.obj [])])]

/-- C1 amended: a missing declared metric field never aborts the
Elasticsearch extraction; the metric is skipped and the remaining
metrics are returned with a nil error whatever the value of
SuppressMissingError, which only controls whether the miss is logged
(the only error FetchMetrics can return after a successful decode is
the multiple-node error). -/
theorem c1_suppress_flag_only_logs (suppress : Bool) (s : JObj) :
    fetchMetricsFromDecoded suppress s = fetchMetricsFromDecoded false s ∧
    (∀ e, fetchMetricsFromDecoded suppress s = ESFetchOutcome.err e → e = "Multiple node found") := by
  constructor
  · rfl
  · intro e he
    unfold fetchMetricsFromDecoded at he
    split at he
    · split at he
      · cases he
      · cases he
      · cases he
      · exact (ESFetchOutcome.err.injEq _ _).mp he.symm
    · cases he

theorem c1_suppress_flag_only_logs_witness :
    fetchMetricsFromDecoded true c1TwoNodes = fetchMetricsFromDecoded false c1TwoNodes ∧
    "Multiple node found" = "Multiple node found" :=
  ⟨(c1_suppress_flag_only_logs true c1TwoNodes).1,
   (c1_suppress_flag_only_logs true c1TwoNodes).2 "Multiple node found" (by decide)⟩

/-- A decoded payload with a single node exposing one declared metric
field. -/
def c3Payload : JObj :=
  [("nodes", Json.obj [("node1", Json.obj
    [("http", Json.obj [("total_opened", Json.num 42)])])])]

/-- C3 counterexample: the Elasticsearch FetchMetrics never inspects
the HTTP status code, so with a status of 500 and a decodable body the
fetch succeeds and emits metrics instead of failing with an error
carrying the status. -/
theorem c3_counterexample :
    elasticsearchHandleResponse false 500 (some c3Payload)
      = ESFetchOutcome.ok [("http_opened", 42)] := by
  decide

/-- C3 amended: only the HAProxy TCP fetch checks the response status:
a status other than 200 fails with an error carrying the status text
and no metric map; the Elasticsearch and PHP-FPM fetches ignore the
response status entirely (their outcome at any status equals their
outcome at status 200). -/
theorem c3_status_check_only_haproxy (code : Nat) (stText uri : String)
    (rows : List (List String)) (suppress : Bool) (body : Option JObj)
    (phpBody : Option Json) (h : code ≠ 200) :
    haproxyHandleResponse code stText uri rows
      = Except.error ("Request failed. Status: " ++ stText ++ ", URI: " ++ uri) ∧
    elasticsearchHandleResponse suppress code body = elasticsearchHandleResponse suppress 200 body ∧
    phpFetchMetricsFromResponse code phpBody = phpFetchMetricsFromResponse 200 phpBody := by
  refine ⟨?_, rfl, rfl⟩
  simp [haproxyHandleResponse, h]

theorem c3_status_check_only_haproxy_witness :
    (500 : Nat) ≠ 200 ∧
    haproxyHandleResponse 500 "500 Internal Server Error" "http://localhost:80/;csv;norefresh" []
      = Except.error ("Request failed. Status: " ++ "500 Internal Server Error"
          ++ ", URI: " ++ "http://localhost:80/;csv;norefresh") :=
  ⟨by decide,
   (c3_status_check_only_haproxy 500 "500 Internal Server Error"
     "http://localhost:80/;csv;norefresh" [] false none none (by decide)).1⟩

/-- The structured-path walk of getFloatValue agrees with following
the key path through nested objects: on a non-empty path it yields the
value q exactly when the path reaches the numeric leaf q. -/
theorem gfv_ok_iff : ∀ (keys : List String) (s : JObj) (q : ℚ), keys ≠ [] →
    (getFloatValue s keys = Except.ok q ↔ followPath (Json.obj s) keys = some (Json.num q))
  | [], _, _, h => absurd rfl h
  | [k], s, q, _ => by
    cases hl : lookupJ s k with
    | none => simp [getFloatValue, followPath, hl]
    | some v => cases v <;> simp [getFloatValue, followPath, hl]
  | k :: k2 :: rest, s, q, _ => by
    cases hl : lookupJ s k with
    | none => simp [getFloatValue, followPath, hl]
    | some v =>
      cases v <;> simp [getFloatValue, followPath, hl]
      case obj m => exact gfv_ok_iff (k2 :: rest) m q (by simp)

/-- C8: for every nested mapping and every non-empty key path, the
structured-path walk getFloatValue returns the numeric leaf reached by
following the path, and it returns an error exactly when the path does
not reach a numeric leaf — that is, when some non-terminal key is
missing or its value is not a nested mapping, or the terminal key is
missing or its value is not a float64. -/
theorem c8_getFloatValue_follows_path (s : JObj) (keys : List String) (h : keys ≠ []) :
    (∀ q : ℚ, getFloatValue s keys = Except.ok q ↔ followPath (Json.obj s) keys = some (Json.num q)) ∧
    ((∃ e, getFloatValue s keys = Except.error e) ↔
      ∀ q : ℚ, followPath (Json.obj s) keys ≠ some (Json.num q)) := by
  constructor
  · exact fun q => gfv_ok_iff keys s q h
  · constructor
    · rintro ⟨e, he⟩ q hq
      rw [← gfv_ok_iff keys s q h] at hq
      rw [he] at hq
      cases hq
    · intro hall
      cases hg : getFloatValue s keys with
      | ok q => exact absurd ((gfv_ok_iff keys s q h).mp hg) (hall q)
      | error e => exact ⟨e, rfl⟩

theorem c8_getFloatValue_follows_path_witness :
    (["a", "b"] : List String) ≠ [] ∧
    (getFloatValue [("a", Json.obj [("b", Json.num 3)])] ["a", "b"] = Except.ok 3 ↔
      followPath (Json.obj [("a", Json.obj [("b", Json.num 3)])]) ["a", "b"] = some (Json.num 3)) :=
  ⟨by decide,
   (c8_getFloatValue_follows_path [("a", Json.obj [("b", Json.num 3)])] ["a", "b"] (by decide)).1 3⟩

/-- A CSV row the parseStats loop passes without aborting: at least 60
columns and, when it is a BACKEND row, its four designated columns
parse as floats. -/
def haproxyRowOk (r : List String) : Prop :=
  60 ≤ r.length ∧ (r.getD 1 "" = "BACKEND" →
    (parseFloat (r.getD 7 "")).isSome ∧ (parseFloat (r.getD 8 "")).isSome ∧
    (parseFloat (r.getD 9 "")).isSome ∧ (parseFloat (r.getD 13 "")).isSome)

instance (r : List String) : Decidable (haproxyRowOk r) := by
  unfold haproxyRowOk
  infer_instance

/-- A BACKEND row whose designated columns all parse never aborts the
loop body. -/
theorem parseBackendRow_isOk (stat : List (String × ℚ)) (r : List String)
    (h7 : (parseFloat (r.getD 7 "")).isSome) (h8 : (parseFloat (r.getD 8 "")).isSome)
    (h9 : (parseFloat (r.getD 9 "")).isSome) (h13 : (parseFloat (r.getD 13 "")).isSome) :
    ∃ stat2, parseBackendRow stat r = Except.ok stat2 := by
  obtain ⟨d1, e1⟩ := Option.isSome_iff_exists.mp h7
  obtain ⟨d2, e2⟩ := Option.isSome_iff_exists.mp h8
  obtain ⟨d3, e3⟩ := Option.isSome_iff_exists.mp h9
  obtain ⟨d4, e4⟩ := Option.isSome_iff_exists.mp h13
  simp only [List.getD_eq_getElem?_getD] at e1 e2 e3 e4
  exact ⟨statAdd (statAdd (statAdd (statAdd stat "sessions" d1) "bytes_in" d2)
      "bytes_out" d3) "connection_errors" d4,
    by simp [parseBackendRow, e1, e2, e3, e4]⟩

/-- A row shorter than 60 columns aborts the loop with the format
error from any accumulator state, as long as the rows before it pass. -/
theorem parseStatsLoop_short_aborts :
    ∀ (pre : List (List String)) (stat : List (String × ℚ)) (row : List String)
      (post : List (List String)), row.length < 60 → (∀ r ∈ pre, haproxyRowOk r) →
    parseStatsLoop (pre ++ row :: post) stat
      = Except.error "length of stats csv is too short (specified uri/socket may be wrong)"
  | [], stat, row, post, hrow, _ => by
    simp [parseStatsLoop, hrow]
  | r :: pre, stat, row, post, hrow, hpre => by
    have hr := hpre r (List.mem_cons_self r pre)
    have hrest : ∀ x ∈ pre, haproxyRowOk x := fun x hx => hpre x (List.mem_cons_of_mem r hx)
    have hlen : ¬ r.length < 60 := not_lt.mpr hr.1
    by_cases hb : r.getD 1 "" = "BACKEND"
    · obtain ⟨h7, h8, h9, h13⟩ := hr.2 hb
      obtain ⟨stat2, hok⟩ := parseBackendRow_isOk stat r h7 h8 h9 h13
      simp only [List.getD_eq_getElem?_getD] at hb
      calc parseStatsLoop ((r :: pre) ++ row :: post) stat
          = parseStatsLoop (pre ++ row :: post) stat2 := by
            simp [parseStatsLoop, hlen, hb, hok]
        _ = Except.error "length of stats csv is too short (specified uri/socket may be wrong)" :=
            parseStatsLoop_short_aborts pre stat2 row post hrow hrest
    · simp only [List.getD_eq_getElem?_getD] at hb
      calc parseStatsLoop ((r :: pre) ++ row :: post) stat
          = parseStatsLoop (pre ++ row :: post) stat := by
            simp [parseStatsLoop, hlen, hb]
        _ = Except.error "length of stats csv is too short (specified uri/socket may be wrong)" :=
            parseStatsLoop_short_aborts pre stat row post hrow hrest

/-- C6: in the HAProxy tabular extractor, any row with fewer than 60
columns aborts the entire extraction with the format error and no
metric map is returned, even when every earlier row was valid and had
already contributed to the accumulators. -/
theorem c6_short_row_aborts (pre : List (List String)) (row : List String)
    (post : List (List String)) (hrow : row.length < 60)
    (hpre : ∀ r ∈ pre, haproxyRowOk r) :
    parseStats (pre ++ row :: post)
      = Except.error "length of stats csv is too short (specified uri/socket may be wrong)" :=
  parseStatsLoop_short_aborts pre [] row post hrow hpre

/-- A valid 60-column BACKEND row with sessions 10, bytes in 100,
bytes out 200 and connection errors 1. -/
def backendRow60 : List String :=
  ["px", "BACKEND", "0", "0", "0", "0", "0", "10", "100", "200"]
    ++ List.replicate 3 "0" ++ ["1"] ++ List.replicate 46 "0"

/-- A valid 60-column FRONTEND row with numeric designated columns. -/
def frontendRow60 : List String :=
  ["px", "FRONTEND", "0", "0", "0", "0", "0", "7", "8", "9"]
    ++ List.replicate 3 "0" ++ ["3"] ++ List.replicate 46 "0"

theorem c6_short_row_aborts_witness :
    ([] : List String).length < 60 ∧ (∀ r ∈ [backendRow60], haproxyRowOk r) ∧
    parseStats [backendRow60, ([] : List String)]
      = Except.error "length of stats csv is too short (specified uri/socket may be wrong)" :=
  ⟨by decide, by decide,
   c6_short_row_aborts [backendRow60] [] [] (by decide) (by decide)⟩

/-- Sum of the parsed values of a designated column over the BACKEND
rows: the accumulator the specification describes for the HAProxy
tabular extraction. -/
def backendColSum : List (List String) → Nat → ℚ
  | [], _ => 0
  | r :: rest, i =>
    (if r.getD 1 "" = "BACKEND" then (parseFloat (r.getD i "")).getD 0 else 0)
      + backendColSum rest i

/-- C7 counterexample: a CSV input whose rows all have at least 60
columns and numeric designated columns but contain no BACKEND row
returns the empty map — not the map with the four accumulator keys
that the claim states. -/
theorem c7_counterexample : parseStats [frontendRow60] = Except.ok [] := by decide

/-- The loop body on a parsing BACKEND row, from the accumulator state
holding the four keys. -/
theorem parseBackendRow_shape (a b c d d1 d2 d3 d4 : ℚ) (r : List String)
    (e1 : parseFloat (r.getD 7 "") = some d1) (e2 : parseFloat (r.getD 8 "") = some d2)
    (e3 : parseFloat (r.getD 9 "") = some d3) (e4 : parseFloat (r.getD 13 "") = some d4) :
    parseBackendRow [("sessions", a), ("bytes_in", b), ("bytes_out", c), ("connection_errors", d)] r
      = Except.ok [("sessions", a + d1), ("bytes_in", b + d2), ("bytes_out", c + d3),
                   ("connection_errors", d + d4)] := by
  simp only [List.getD_eq_getElem?_getD] at e1 e2 e3 e4
  simp [parseBackendRow, e1, e2, e3, e4, statAdd, statInsert, lookup0]

/-- The loop body on a parsing BACKEND row, from the empty accumulator
state: the four keys appear in insertion order. -/
theorem parseBackendRow_emptyStat (d1 d2 d3 d4 : ℚ) (r : List String)
    (e1 : parseFloat (r.getD 7 "") = some d1) (e2 : parseFloat (r.getD 8 "") = some d2)
    (e3 : parseFloat (r.getD 9 "") = some d3) (e4 : parseFloat (r.getD 13 "") = some d4) :
    parseBackendRow [] r
      = Except.ok [("sessions", 0 + d1), ("bytes_in", 0 + d2), ("bytes_out", 0 + d3),
                   ("connection_errors", 0 + d4)] := by
  simp only [List.getD_eq_getElem?_getD] at e1 e2 e3 e4
  simp [parseBackendRow, e1, e2, e3, e4, statAdd, statInsert, lookup0]

/-- Once the four accumulator keys exist, the rest of the loop adds
exactly the BACKEND column sums of the remaining rows. -/
theorem parseStatsLoop_shape :
    ∀ (rows : List (List String)) (a b c d : ℚ), (∀ r ∈ rows, haproxyRowOk r) →
      parseStatsLoop rows
          [("sessions", a), ("bytes_in", b), ("bytes_out", c), ("connection_errors", d)]
        = Except.ok [("sessions", a + backendColSum rows 7), ("bytes_in", b + backendColSum rows 8),
                     ("bytes_out", c + backendColSum rows 9),
                     ("connection_errors", d + backendColSum rows 13)]
  | [], a, b, c, d, _ => by simp [parseStatsLoop, backendColSum]
  | r :: rows, a, b, c, d, h => by
    have hr := h r (List.mem_cons_self r rows)
    have hrest : ∀ x ∈ rows, haproxyRowOk x := fun x hx => h x (List.mem_cons_of_mem r hx)
    have hlen : ¬ r.length < 60 := not_lt.mpr hr.1
    by_cases hb : r.getD 1 "" = "BACKEND"
    · obtain ⟨h7, h8, h9, h13⟩ := hr.2 hb
      obtain ⟨d1, e1⟩ := Option.isSome_iff_exists.mp h7
      obtain ⟨d2, e2⟩ := Option.isSome_iff_exists.mp h8
      obtain ⟨d3, e3⟩ := Option.isSome_iff_exists.mp h9
      obtain ⟨d4, e4⟩ := Option.isSome_iff_exists.mp h13
      have hrow := parseBackendRow_shape a b c d d1 d2 d3 d4 r e1 e2 e3 e4
      have ih := parseStatsLoop_shape rows (a + d1) (b + d2) (c + d3) (d + d4) hrest
      have hs : ∀ i di, parseFloat (r.getD i "") = some di →
          backendColSum (r :: rows) i = di + backendColSum rows i := by
        intro i di hi
        simp only [List.getD_eq_getElem?_getD] at hi
        have hb3 := hb
        simp only [List.getD_eq_getElem?_getD] at hb3
        simp [backendColSum, hb3, hi]
      have hb2 := hb
      simp only [List.getD_eq_getElem?_getD] at hb2
      have step : parseStatsLoop (r :: rows)
          [("sessions", a), ("bytes_in", b), ("bytes_out", c), ("connection_errors", d)]
          = parseStatsLoop rows [("sessions", a + d1), ("bytes_in", b + d2), ("bytes_out", c + d3),
              ("connection_errors", d + d4)] := by
        simp [parseStatsLoop, hlen, hb2, hrow]
      rw [step, ih, hs 7 d1 e1, hs 8 d2 e2, hs 9 d3 e3, hs 13 d4 e4]
      simp [add_assoc]
    · have hb2 := hb
      simp only [List.getD_eq_getElem?_getD] at hb2
      have step : parseStatsLoop (r :: rows)
          [("sessions", a), ("bytes_in", b), ("bytes_out", c), ("connection_errors", d)]
          = parseStatsLoop rows [("sessions", a), ("bytes_in", b), ("bytes_out", c),
              ("connection_errors", d)] := by
        simp [parseStatsLoop, hlen, hb2]
      have hs : ∀ i, backendColSum (r :: rows) i = backendColSum rows i := by
        intro i
        simp [backendColSum, hb2]
      rw [step, parseStatsLoop_shape rows a b c d hrest, hs 7, hs 8, hs 9, hs 13]

/-- parseStats on rows that all pass, containing at least one BACKEND
row, returns exactly the four accumulators with the BACKEND column
sums. -/
theorem parseStats_backendColSum :
    ∀ (rows : List (List String)), (∀ r ∈ rows, haproxyRowOk r) →
      (∃ r ∈ rows, r.getD 1 "" = "BACKEND") →
      parseStats rows = Except.ok
        [("sessions", backendColSum rows 7), ("bytes_in", backendColSum rows 8),
         ("bytes_out", backendColSum rows 9), ("connection_errors", backendColSum rows 13)]
  | [], _, hback => absurd hback (by simp)
  | r :: rows, h, hback => by
    have hr := h r (List.mem_cons_self r rows)
    have hrest : ∀ x ∈ rows, haproxyRowOk x := fun x hx => h x (List.mem_cons_of_mem r hx)
    have hlen : ¬ r.length < 60 := not_lt.mpr hr.1
    by_cases hb : r.getD 1 "" = "BACKEND"
    · obtain ⟨h7, h8, h9, h13⟩ := hr.2 hb
      obtain ⟨d1, e1⟩ := Option.isSome_iff_exists.mp h7
      obtain ⟨d2, e2⟩ := Option.isSome_iff_exists.mp h8
      obtain ⟨d3, e3⟩ := Option.isSome_iff_exists.mp h9
      obtain ⟨d4, e4⟩ := Option.isSome_iff_exists.mp h13
      have hrow := parseBackendRow_emptyStat d1 d2 d3 d4 r e1 e2 e3 e4
      have hs : ∀ i di, parseFloat (r.getD i "") = some di →
          backendColSum (r :: rows) i = di + backendColSum rows i := by
        intro i di hi
        simp only [List.getD_eq_getElem?_getD] at hi
        have hb3 := hb
        simp only [List.getD_eq_getElem?_getD] at hb3
        simp [backendColSum, hb3, hi]
      have hb2 := hb
      simp only [List.getD_eq_getElem?_getD] at hb2
      have step : parseStats (r :: rows)
          = parseStatsLoop rows [("sessions", 0 + d1), ("bytes_in", 0 + d2), ("bytes_out", 0 + d3),
              ("connection_errors", 0 + d4)] := by
        simp [parseStats, parseStatsLoop, hlen, hb2, hrow]
      rw [step, parseStatsLoop_shape rows (0 + d1) (0 + d2) (0 + d3) (0 + d4) hrest,
        hs 7 d1 e1, hs 8 d2 e2, hs 9 d3 e3, hs 13 d4 e4]
      simp [add_assoc]
    · have hback2 : ∃ x ∈ rows, x.getD 1 "" = "BACKEND" := by
        obtain ⟨x, hx, hxb⟩ := hback
        rcases List.mem_cons.mp hx with hx1 | hx2
        · exact absurd (hx1 ▸ hxb) hb
        · exact ⟨x, hx2, hxb⟩
      have hb2 := hb
      simp only [List.getD_eq_getElem?_getD] at hb2
      have step : parseStats (r :: rows) = parseStats rows := by
        simp [parseStats, parseStatsLoop, hlen, hb2]
      have hs : ∀ i, backendColSum (r :: rows) i = backendColSum rows i := by
        intro i
        simp [backendColSum, hb2]
      rw [step, parseStats_backendColSum rows hrest hback2, hs 7, hs 8, hs 9, hs 13]

/-- C7 amended: for every CSV input whose rows all have at least 60
columns and whose BACKEND rows have numeric designated columns, and
which contains at least one BACKEND row, the returned map is exactly
sessions, bytes_in, bytes_out and connection_errors, each value the
sum of columns 7, 8, 9 and 13 over precisely the BACKEND rows (rows
with any other discriminator contribute nothing); with no BACKEND row
the returned map is empty rather than holding four zero entries. -/
theorem c7_backend_sums (rows : List (List String)) (h : ∀ r ∈ rows, haproxyRowOk r)
    (hback : ∃ r ∈ rows, r.getD 1 "" = "BACKEND") :
    parseStats rows = Except.ok
      [("sessions", backendColSum rows 7), ("bytes_in", backendColSum rows 8),
       ("bytes_out", backendColSum rows 9), ("connection_errors", backendColSum rows 13)] :=
  parseStats_backendColSum rows h hback

/-- The CSV input of the specification scenario: one BACKEND row with
sessions 10, bytes in 100, bytes out 200 and connection errors 1,
surrounded by FRONTEND rows. -/
def demoRows : List (List String) := [frontendRow60, backendRow60, frontendRow60]

theorem c7_backend_sums_witness :
    (∀ r ∈ demoRows, haproxyRowOk r) ∧ (∃ r ∈ demoRows, r.getD 1 "" = "BACKEND") ∧
    parseStats demoRows = Except.ok
      [("sessions", 10), ("bytes_in", 100), ("bytes_out", 200), ("connection_errors", 1)] := by
  refine ⟨by decide, by decide, ?_⟩
  rw [c7_backend_sums demoRows (by decide) (by decide)]
  have hf : frontendRow60[1]?.getD "" = "FRONTEND" := rfl
  have hbb : backendRow60[1]?.getD "" = "BACKEND" := rfl
  have h7 : parseFloat (backendRow60[7]?.getD "") = some 10 := rfl
  have h8 : parseFloat (backendRow60[8]?.getD "") = some 100 := rfl
  have h9 : parseFloat (backendRow60[9]?.getD "") = some 200 := rfl
  have h13 : parseFloat (backendRow60[13]?.getD "") = some 1 := rfl
  have hne : ¬ ("FRONTEND" = "BACKEND") := by decide
  norm_num [demoRows, backendColSum, hf, hbb, h7, h8, h9, h13, hne]

/-- The key list of a metric sample map. -/
def statKeys (stat : List (String × ℚ)) : List String := stat.map Prod.fst

/-- The Go map membership test of statInsert agrees with key-list
membership. -/
theorem statAny_iff (stat : List (String × ℚ)) (k : String) :
    stat.any (fun kv => kv.1 = k) = true ↔ k ∈ statKeys stat := by
  simp [statKeys, List.any_eq_true]

/-- Key list of a Go map assignment: unchanged when the key exists,
extended at the end otherwise. -/
theorem statInsert_keys (stat : List (String × ℚ)) (k : String) (v : ℚ) :
    statKeys (statInsert stat k v)
      = if k ∈ statKeys stat then statKeys stat else statKeys stat ++ [k] := by
  unfold statInsert
  by_cases h : k ∈ statKeys stat
  · rw [if_pos ((statAny_iff stat k).mpr h), if_pos h]
    unfold statKeys
    rw [List.map_map]
    apply List.map_congr_left
    intro kv _
    by_cases hk : kv.1 = k
    · simp [hk]
    · simp [hk]
  · rw [if_neg (fun hc => h ((statAny_iff stat k).mp hc)), if_neg h]
    simp [statKeys]

/-- A Go map assignment keeps the key list duplicate free. -/
theorem statInsert_keys_nodup (stat : List (String × ℚ)) (k : String) (v : ℚ)
    (h : (statKeys stat).Nodup) : (statKeys (statInsert stat k v)).Nodup := by
  rw [statInsert_keys]
  by_cases hk : k ∈ statKeys stat
  · simpa [hk] using h
  · simp only [hk, if_false]
    simp [List.nodup_append, h, hk]

/-- Every key after a Go map assignment is an old key or the assigned
key. -/
theorem statInsert_keys_subset (stat : List (String × ℚ)) (k : String) (v : ℚ) :
    ∀ x ∈ statKeys (statInsert stat k v), x ∈ statKeys stat ∨ x = k := by
  intro x hx
  rw [statInsert_keys] at hx
  by_cases hk : k ∈ statKeys stat
  · rw [if_pos hk] at hx
    exact Or.inl hx
  · rw [if_neg hk] at hx
    rcases List.mem_append.mp hx with h | h
    · exact Or.inl h
    · exact Or.inr (List.mem_singleton.mp h)

/-- A Go map compound assignment with a schema key keeps the sample
keys duplicate free and inside the schema. -/
theorem statAdd_preserves (stat : List (String × ℚ)) (k : String) (v : ℚ)
    (names : List String) (hk : k ∈ names) (hnd : (statKeys stat).Nodup)
    (hsub : ∀ x ∈ statKeys stat, x ∈ names) :
    (statKeys (statAdd stat k v)).Nodup ∧ ∀ x ∈ statKeys (statAdd stat k v), x ∈ names := by
  unfold statAdd
  refine ⟨statInsert_keys_nodup stat k _ hnd, ?_⟩
  intro x hx
  rcases statInsert_keys_subset stat k _ x hx with h | h
  · exact hsub x h
  · exact h ▸ hk

/-- Whether a metric path extraction succeeds on a node — the
specification-side notion of the metric being present in the
payload. -/
def extractOk (node : JObj) (path : List String) : Bool :=
  match getFloatValue node path with
  | Except.ok _ => true
  | Except.error _ => false

/-- The Elasticsearch metric loop emits exactly the declared metrics
whose extraction succeeds, in table order, after the keys already in
the accumulator. -/
theorem runMetricLoop_keys (node : JObj) :
    ∀ (mlist : List (String × List String)) (stat : List (String × ℚ)),
      (∀ kp ∈ mlist, kp.1 ∉ statKeys stat) → (mlist.map Prod.fst).Nodup →
      statKeys (runMetricLoop node mlist stat)
        = statKeys stat ++ (mlist.filter (fun kp => extractOk node kp.2)).map Prod.fst
  | [], stat, _, _ => by simp [runMetricLoop]
  | (k, path) :: rest, stat, hdisj, hnd => by
    have hk : k ∉ statKeys stat := hdisj (k, path) (List.mem_cons_self _ _)
    have hrest : ∀ kp ∈ rest, kp.1 ∉ statKeys stat :=
      fun kp hkp => hdisj kp (List.mem_cons_of_mem _ hkp)
    have hknotrest : k ∉ rest.map Prod.fst := by
      have := hnd
      simp only [List.map_cons, List.nodup_cons] at this
      exact this.1
    have hndrest : (rest.map Prod.fst).Nodup := by
      have := hnd
      simp only [List.map_cons, List.nodup_cons] at this
      exact this.2
    cases hg : getFloatValue node path with
    | error e =>
      have step : runMetricLoop node ((k, path) :: rest) stat = runMetricLoop node rest stat := by
        simp [runMetricLoop, hg]
      rw [step, runMetricLoop_keys node rest stat hrest hndrest]
      simp [List.filter_cons, extractOk, hg]
    | ok v =>
      have hins : statKeys (statInsert stat k v) = statKeys stat ++ [k] := by
        rw [statInsert_keys, if_neg hk]
      have hrest2 : ∀ kp ∈ rest, kp.1 ∉ statKeys (statInsert stat k v) := by
        intro kp hkp
        rw [hins]
        intro hmem
        rcases List.mem_append.mp hmem with h | h
        · exact hrest kp hkp h
        · exact hknotrest (List.mem_singleton.mp h ▸ List.mem_map_of_mem Prod.fst hkp)
      have step : runMetricLoop node ((k, path) :: rest) stat
          = runMetricLoop node rest (statInsert stat k v) := by
        simp [runMetricLoop, hg]
      rw [step, runMetricLoop_keys node rest (statInsert stat k v) hrest2 hndrest, hins]
      simp [List.filter_cons, extractOk, hg]

/-- A successful BACKEND-row step keeps the sample keys duplicate free
and inside the HAProxy schema names. -/
theorem parseBackendRow_keys (stat : List (String × ℚ)) (r : List String)
    (stat2 : List (String × ℚ)) (h : parseBackendRow stat r = Except.ok stat2)
    (hnd : (statKeys stat).Nodup)
    (hsub : ∀ x ∈ statKeys stat, x ∈ graphDefMetricNames haproxyGraphdef) :
    (statKeys stat2).Nodup ∧ ∀ x ∈ statKeys stat2, x ∈ graphDefMetricNames haproxyGraphdef := by
  have m1 : "sessions" ∈ graphDefMetricNames haproxyGraphdef := by decide
  have m2 : "bytes_in" ∈ graphDefMetricNames haproxyGraphdef := by decide
  have m3 : "bytes_out" ∈ graphDefMetricNames haproxyGraphdef := by decide
  have m4 : "connection_errors" ∈ graphDefMetricNames haproxyGraphdef := by decide
  unfold parseBackendRow at h
  cases h7 : parseFloat (r.getD 7 "") with
  | none =>
    rw [h7] at h
    cases h
  | some d1 =>
    rw [h7] at h
    cases h8 : parseFloat (r.getD 8 "") with
    | none =>
      rw [h8] at h
      cases h
    | some d2 =>
      rw [h8] at h
      cases h9 : parseFloat (r.getD 9 "") with
      | none =>
        rw [h9] at h
        cases h
      | some d3 =>
        rw [h9] at h
        cases h13 : parseFloat (r.getD 13 "") with
        | none =>
          rw [h13] at h
          cases h
        | some d4 =>
          rw [h13] at h
          injection h with h2
          subst h2
          obtain ⟨n1, u1⟩ := statAdd_preserves stat "sessions" d1 _ m1 hnd hsub
          obtain ⟨n2, u2⟩ := statAdd_preserves _ "bytes_in" d2 _ m2 n1 u1
          obtain ⟨n3, u3⟩ := statAdd_preserves _ "bytes_out" d3 _ m3 n2 u2
          exact statAdd_preserves _ "connection_errors" d4 _ m4 n3 u3

/-- A successful HAProxy parse keeps the sample keys duplicate free
and inside the HAProxy schema names, from any accumulator state with
those properties. -/
theorem parseStatsLoop_keys :
    ∀ (rows : List (List String)) (stat out : List (String × ℚ)),
      parseStatsLoop rows stat = Except.ok out → (statKeys stat).Nodup →
      (∀ x ∈ statKeys stat, x ∈ graphDefMetricNames haproxyGraphdef) →
      (statKeys out).Nodup ∧ ∀ x ∈ statKeys out, x ∈ graphDefMetricNames haproxyGraphdef
  | [], stat, out, h, hnd, hsub => by
    cases h
    exact ⟨hnd, hsub⟩
  | r :: rows, stat, out, h, hnd, hsub => by
    unfold parseStatsLoop at h
    split at h
    · cases h
    · split at h
      · exact parseStatsLoop_keys rows stat out h hnd hsub
      · split at h
        · cases h
        · rename_i stat2 hpb
          obtain ⟨hnd2, hsub2⟩ := parseBackendRow_keys stat r stat2 hpb hnd hsub
          exact parseStatsLoop_keys rows stat2 out h hnd2 hsub2

/-- A successful PHP-FPM fetch emits exactly the nine schema metric
names, in schema order. -/
theorem phpFetch_ok_keys (lblPfx : String) (body : Option Json) (sample : List (String × Nat))
    (h : phpFetchMetricsFromBody body = PhpFetchOutcome.ok sample) :
    (sample.map Prod.fst).Nodup ∧
      sample.map Prod.fst = graphDefMetricNames (phpFpmGraphDefinition lblPfx) := by
  unfold phpFetchMetricsFromBody getStatusFromBody at h
  cases hj : jsonUnmarshalStatus body with
  | none =>
    rw [hj] at h
    cases h
  | some st =>
    rw [hj] at h
    injection h with h2
    subst h2
    refine ⟨?_, rfl⟩
    have hmap : (List.map Prod.fst
        [("total_processes", st.totalProcesses), ("active_processes", st.activeProcesses),
         ("idle_processes", st.idleProcesses), ("max_active_processes", st.maxActiveProcesses),
         ("max_children_reached", st.maxChildrenReached), ("listen_queue", st.listenQueue),
         ("listen_queue_len", st.listenQueueLen), ("max_listen_queue", st.maxListenQueue),
         ("slow_requests", st.slowRequests)])
        = ["total_processes", "active_processes", "idle_processes", "max_active_processes",
           "max_children_reached", "listen_queue", "listen_queue_len", "max_listen_queue",
           "slow_requests"] := rfl
    rw [hmap]
    decide

/-- C9: for every plugin, a successful run emits a sample map without
duplicate names whose keys are exactly the schema-declared metrics
present in the source payload: the Elasticsearch schema names coincide
with the extractor table, the emitted keys are precisely the declared
metrics whose path extraction succeeds (each inside the schema, and
every declared metric present in the payload emitted); a successful
HAProxy parse emits keys without duplicates all inside its schema; and
a successful PHP-FPM fetch emits exactly its nine schema names. -/
theorem c9_sample_keys_match_schema (keyPfx lblPfx phpLbl : String) (node : JObj)
    (rows : List (List String)) (phpBody : Option Json) :
    (graphDefMetricNames (elasticsearchGraphDefinition keyPfx lblPfx) = metricPlace.map Prod.fst) ∧
    ((statKeys (runMetricLoop node metricPlace [])).Nodup ∧
      statKeys (runMetricLoop node metricPlace [])
        = (metricPlace.filter (fun kp => extractOk node kp.2)).map Prod.fst ∧
      (∀ k ∈ statKeys (runMetricLoop node metricPlace []),
        k ∈ graphDefMetricNames (elasticsearchGraphDefinition keyPfx lblPfx)) ∧
      (∀ kp ∈ metricPlace, extractOk node kp.2 = true →
        kp.1 ∈ statKeys (runMetricLoop node metricPlace []))) ∧
    (∀ out, parseStats rows = Except.ok out →
      (statKeys out).Nodup ∧ ∀ x ∈ statKeys out, x ∈ graphDefMetricNames haproxyGraphdef) ∧
    (∀ rows2 : List (List String), (∀ r ∈ rows2, haproxyRowOk r) →
      (∃ r ∈ rows2, r.getD 1 "" = "BACKEND") →
      ∃ out, parseStats rows2 = Except.ok out ∧
        statKeys out = graphDefMetricNames haproxyGraphdef) ∧
    (∀ sample, phpFetchMetricsFromBody phpBody = PhpFetchOutcome.ok sample →
      (sample.map Prod.fst).Nodup ∧
        sample.map Prod.fst = graphDefMetricNames (phpFpmGraphDefinition phpLbl)) := by
  have hnodup : (metricPlace.map Prod.fst).Nodup := by decide
  have hkeys := runMetricLoop_keys node metricPlace [] (by simp [statKeys]) hnodup
  simp only [statKeys, List.map_nil, List.nil_append] at hkeys
  have hkeys2 : statKeys (runMetricLoop node metricPlace [])
      = (metricPlace.filter (fun kp => extractOk node kp.2)).map Prod.fst := hkeys
  refine ⟨rfl, ⟨?_, hkeys2, ?_, ?_⟩, ?_, ?_, ?_⟩
  · rw [hkeys2]
    exact List.Nodup.sublist ((List.filter_sublist _).map _) hnodup
  · intro k hk
    rw [hkeys2] at hk
    obtain ⟨kp, hfil, rfl⟩ := List.mem_map.mp hk
    have : kp ∈ metricPlace := (List.mem_filter.mp hfil).1
    show kp.1 ∈ graphDefMetricNames (elasticsearchGraphDefinition keyPfx lblPfx)
    have heq : graphDefMetricNames (elasticsearchGraphDefinition keyPfx lblPfx)
        = metricPlace.map Prod.fst := rfl
    rw [heq]
    exact List.mem_map_of_mem Prod.fst this
  · intro kp hkp hok
    rw [hkeys2]
    exact List.mem_map_of_mem Prod.fst (List.mem_filter.mpr ⟨hkp, hok⟩)
  · intro out h
    exact parseStatsLoop_keys rows [] out h (by simp [statKeys]) (by simp [statKeys])
  · intro rows2 hok hback
    exact ⟨_, parseStats_backendColSum rows2 hok hback, rfl⟩
  · intro sample h
    exact phpFetch_ok_keys phpLbl phpBody sample h

/-- The sample the PHP-FPM fetch emits for an empty JSON object
body. -/
def phpZeroSample : List (String × Nat) :=
  [("total_processes", 0), ("active_processes", 0), ("idle_processes", 0),
   ("max_active_processes", 0), ("max_children_reached", 0), ("listen_queue", 0),
   ("listen_queue_len", 0), ("max_listen_queue", 0), ("slow_requests", 0)]

theorem c9_sample_keys_match_schema_witness :
    (statKeys (runMetricLoop [] metricPlace [])).Nodup ∧
    ((statKeys ([] : List (String × ℚ))).Nodup ∧
      ∀ x ∈ statKeys ([] : List (String × ℚ)), x ∈ graphDefMetricNames haproxyGraphdef) ∧
    (phpZeroSample.map Prod.fst).Nodup :=
  ⟨(c9_sample_keys_match_schema "es" "ES" "PHP" [] [] (some (Json.obj []))).2.1.1,
   (c9_sample_keys_match_schema "es" "ES" "PHP" [] [] (some (Json.obj []))).2.2.1 [] rfl,
   ((c9_sample_keys_match_schema "es" "ES" "PHP" [] [] (some (Json.obj []))).2.2.2.2
     phpZeroSample (by decide)).1⟩
